import Mathlib

/-!
Shallow embedding of the tagz.lol backend (`src/main.py`) and verification of
its specification's claims.  The FastAPI handlers are modelled as pure
functions over an explicit database state; the external libraries (passlib,
python-jose) are modelled by their documented input/output behaviour at the
exact call sites the code uses.
-/

/-! ## Credential store (passlib `CryptContext(schemes=["bcrypt"])`) -/

/-- Model of a password digest string.  A digest produced by passlib's bcrypt
embeds a salt and is verifiable against the password it was produced from; any
string that is not a recognizable hash is `malformed`. -/
inductive Digest where
  | bcrypt (salt : Nat) (password : String)
  | malformed (raw : String)
deriving DecidableEq

/-- passlib `CryptContext.verify`: on a recognizable bcrypt digest it returns
whether the password matches; on a digest it cannot identify it raises
`UnknownHashError` (a `ValueError`), modelled as `Except.error`. -/
def pwdCtxVerify (p : String) (d : Digest) : Except String Bool :=
  match d with
  | .bcrypt _ q => .ok (decide (p = q))
  | .malformed _ => .error "UnknownHashError"

/-- `hash_pw` (main.py line 59): `pwd_ctx.hash(p)` with a fresh random salt;
the salt is passed explicitly in the model. -/
def hash_pw (p : String) (salt : Nat) : Digest :=
  .bcrypt salt p

/-- `verify_pw` (main.py line 62): calls `pwd_ctx.verify(p, hashed)` directly,
with no exception handling, so an error raised by passlib propagates. -/
def verify_pw (p : String) (hashed : Digest) : Except String Bool :=
  pwdCtxVerify p hashed

/-! ## Token service (python-jose JWT, HS256) -/

/-- The JWT claims this application uses: an optional subject (`"sub"` is not
a required claim for `jwt.decode`) and an expiry timestamp in seconds. -/
structure TokenPayload where
  sub : Option String
  exp : Int
deriving DecidableEq

/-- An encoded JWT, modelled as its payload together with the signing key. -/
structure Token where
  payload : TokenPayload
  key : String
deriving DecidableEq

/-- `ACCESS_TOKEN_MINUTES = 60 * 24 * 14` (main.py line 16): 14 days. -/
def ACCESS_TOKEN_MINUTES : Int := 60 * 24 * 14

/-- `create_token` (main.py lines 65-68): copies the data, sets
`exp = utcnow() + timedelta(minutes=minutes)` and signs with the secret.
Time is measured in seconds. -/
def create_token (sub : Option String) (minutes : Int) (now : Int)
    (secret : String) : Token :=
  { payload := { sub := sub, exp := now + 60 * minutes }, key := secret }

/-- `jwt.decode(token, secret, algorithms=[ALGORITHM])`: succeeds iff the
signature key matches and the token is not expired; jose accepts a token
while `now ≤ exp` and raises `ExpiredSignatureError` (a `JWTError`) after. -/
def jwtDecode (tok : Token) (secret : String) (now : Int) : Option TokenPayload :=
  if tok.key = secret ∧ now ≤ tok.payload.exp then some tok.payload else none

/-! ## Data model (SQLAlchemy `users` and `links` tables) -/

/-- A row of the `users` table (main.py lines 28-41). -/
structure UserRec where
  id : Nat
  username : String
  email : String
  password_hash : Digest
  bio : Option String
  avatar_url : Option String
  theme_hex : Option String
deriving DecidableEq

/-- A row of the `links` table (main.py lines 43-52). -/
structure LinkRec where
  id : Nat
  user_id : Nat
  title : String
  url : String
  icon : Option String
  order_index : Int
deriving DecidableEq

/-- The relational store: rows in insertion order, plus the autoincrement
counters that assign fresh primary keys. -/
structure DB where
  users : List UserRec
  links : List LinkRec
  nextUserId : Nat
  nextLinkId : Nat
deriving DecidableEq

/-! ## Request/response schemas (pydantic models) -/

/-- `LinkIn` (main.py lines 78-82); `order_index: int = 0`. -/
structure LinkIn where
  title : String
  url : String
  icon : Option String
  order_index : Int
deriving DecidableEq

/-- `UpdateProfileIn` (main.py lines 101-105): every field optional, absent
fields parse to `none`. -/
structure UpdateProfileIn where
  bio : Option String
  avatar_url : Option String
  theme_hex : Option String
  links : Option (List LinkIn)
deriving DecidableEq

/-- `LinkOut` (main.py lines 84-87): a link as rendered in a profile view. -/
structure LinkOut where
  id : Nat
  title : String
  url : String
  icon : Option String
  order_index : Int
deriving DecidableEq

/-- `UserPublic` (main.py lines 89-94): the profile view returned by `/me`,
`PUT /me` and `/profile/{username}`. -/
structure UserPublic where
  username : String
  bio : Option String
  avatar_url : Option String
  theme_hex : Option String
  links : List LinkOut
deriving DecidableEq

/-! ## Profile assembly -/

/-- The sort key relation used by `sorted(u.links, key=lambda x: x.order_index)`. -/
def linkLE (a b : LinkRec) : Prop :=
  a.order_index ≤ b.order_index

instance : DecidableRel linkLE :=
  fun a b => inferInstanceAs (Decidable (a.order_index ≤ b.order_index))

instance : IsTotal LinkRec linkLE :=
  ⟨fun a b => Int.le_total a.order_index b.order_index⟩

instance : IsTrans LinkRec linkLE :=
  ⟨fun _ _ _ => Int.le_trans⟩

/-- Python's `sorted(links, key=lambda x: x.order_index)` is the stable sort
by `order_index`; insertion sort with `≤` on the key computes exactly that
stable sort (sortedness and tie stability are proved below). -/
def sortLinks (ls : List LinkRec) : List LinkRec :=
  ls.insertionSort linkLE

/-- The ORM relationship `u.links`: all link rows owned by the user, in
insertion order. -/
def linksOf (db : DB) (uid : Nat) : List LinkRec :=
  db.links.filter (fun l => decide (l.user_id = uid))

/-- Rendering of a link row as `LinkOut.model_validate(l)`. -/
def linkOut (l : LinkRec) : LinkOut :=
  { id := l.id
    title := l.title
    url := l.url
    icon := l.icon
    order_index := l.order_index }

/-! ## Lookups -/

/-- Python `str.lower()` as used on usernames, emails and identifiers,
modelled character-wise. -/
def pyLower (s : String) : String :=
  String.mk (s.data.map Char.toLower)

/-- `db.query(User).filter(User.username == uname).first()` over the model:
the first user row whose stored username equals `uname`. -/
def findUserByUsername (db : DB) (uname : String) : Option UserRec :=
  db.users.find? (fun u => decide (u.username = uname))

/-- `db.query(User).filter(User.email == em).first()`. -/
def findUserByEmail (db : DB) (em : String) : Option UserRec :=
  db.users.find? (fun u => decide (u.email = em))

/-- The login lookup (main.py line 166): first user whose username OR email
equals the lowercased identifier. -/
def findByIdentifier (db : DB) (ident : String) : Option UserRec :=
  db.users.find? (fun u =>
    decide (u.username = pyLower ident ∨ u.email = pyLower ident))

/-! ## Session resolver -/

/-- Outcome of `current_user`: a user, an `HTTPException`, or an uncaught
Python exception escaping the handler. -/
inductive AuthResult where
  | ok (u : UserRec)
  | httpError (status : Nat) (detail : String)
  | pythonError (exc : String)
deriving DecidableEq

/-- `current_user` (main.py lines 128-137).  `payload.get("sub")` yields
`None` when the verified token has no `"sub"` claim; the subsequent
`username.lower()` on line 134 sits outside the `except JWTError` block and
raises an uncaught `AttributeError` in that case. -/
def current_user (secret : String) (db : DB) (tok : Token) (now : Int) :
    AuthResult :=
  match jwtDecode tok secret now with
  | none => .httpError 401 "Invalid token"
  | some payload =>
    match payload.sub with
    | none => .pythonError "AttributeError"
    | some s =>
      match findUserByUsername db (pyLower s) with
      | none => .httpError 401 "User not found"
      | some u => .ok u

/-! ## Endpoints -/

/-- Pydantic validation of `SignupIn` (main.py lines 96-99): username between
3 and 32 characters, a syntactically valid email (`EmailStr`, abstracted as a
caller-supplied predicate), password at least 6 characters. -/
def signupInValid (emailOk : String → Bool) (username email password : String) :
    Bool :=
  decide (3 ≤ username.length) && decide (username.length ≤ 32) &&
    emailOk email && decide (6 ≤ password.length)

/-- Outcome of the signup endpoint. -/
inductive SignupResult where
  | ok (tok : Token)
  | httpError (status : Nat) (detail : String)
  | validationError
deriving DecidableEq

/-- `signup` (main.py lines 144-161), including the pydantic input gate that
runs before the handler: returns the response and the resulting store. -/
def signup (secret : String) (emailOk : String → Bool) (db : DB)
    (username email password : String) (salt : Nat) (now : Int) :
    SignupResult × DB :=
  if signupInValid emailOk username email password then
    if (findUserByUsername db (pyLower username)).isSome then
      (.httpError 400 "Username already taken", db)
    else if (findUserByEmail db (pyLower email)).isSome then
      (.httpError 400 "Email already registered", db)
    else
      let u : UserRec :=
        { id := db.nextUserId
          username := pyLower username
          email := pyLower email
          password_hash := hash_pw password salt
          bio := some ""
          avatar_url := none
          theme_hex := some "#00ff88" }
      (.ok (create_token (some u.username) ACCESS_TOKEN_MINUTES now secret),
        { db with users := db.users ++ [u], nextUserId := db.nextUserId + 1 })
  else
    (.validationError, db)

/-- Outcome of the login endpoint. -/
inductive LoginResult where
  | ok (tok : Token)
  | httpError (status : Nat) (detail : String)
  | pythonError (exc : String)
deriving DecidableEq

/-- `login` (main.py lines 163-171): the identifier matches username or
email; a missing user short-circuits `or`, so `verify_pw` runs only on a
found user's stored hash. -/
def login (secret : String) (db : DB) (ident password : String) (now : Int) :
    LoginResult :=
  match findByIdentifier db ident with
  | none => .httpError 401 "Invalid credentials"
  | some u =>
    match verify_pw password u.password_hash with
    | .error e => .pythonError e
    | .ok true =>
      .ok (create_token (some u.username) ACCESS_TOKEN_MINUTES now secret)
    | .ok false => .httpError 401 "Invalid credentials"

/-- `me` (main.py lines 173-181): the view of the resolved user. -/
def me (db : DB) (u : UserRec) : UserPublic :=
  { username := u.username
    bio := u.bio
    avatar_url := u.avatar_url
    theme_hex := u.theme_hex
    links := (sortLinks (linksOf db u.id)).map linkOut }

/-- Assignment of `order_index` for the i-th posted link (main.py line 193):
`L.order_index if L.order_index else i` — Python truthiness, so a supplied 0
falls back to the position and any nonzero value is kept. -/
def assignIndex (L : LinkIn) (i : Nat) : Int :=
  if L.order_index = 0 then (i : Int) else L.order_index

/-- The link rows inserted by `update_me`'s `enumerate` loop, with fresh
autoincrement ids starting at `startId`; `j` is the current loop position. -/
def mkNewLinksAux (uid startId : Nat) : Nat → List LinkIn → List LinkRec
  | _, [] => []
  | j, L :: ls =>
    { id := startId + j
      user_id := uid
      title := L.title
      url := L.url
      icon := L.icon
      order_index := assignIndex L j } :: mkNewLinksAux uid startId (j + 1) ls

/-- All link rows inserted for a posted `links` list. -/
def mkNewLinks (uid startId : Nat) (ls : List LinkIn) : List LinkRec :=
  mkNewLinksAux uid startId 0 ls

/-- `update_me` (main.py lines 183-196): overwrite each of bio, avatar_url,
theme_hex that is present; when `links` is present, delete every link row
owned by the user and insert the posted sequence.  Returns the new store. -/
def update_me (db : DB) (uid : Nat) (payload : UpdateProfileIn) : DB :=
  let users := db.users.map (fun u =>
    if u.id = uid then
      { u with
        bio := (match payload.bio with | some b => some b | none => u.bio)
        avatar_url :=
          (match payload.avatar_url with | some a => some a | none => u.avatar_url)
        theme_hex :=
          (match payload.theme_hex with | some t => some t | none => u.theme_hex) }
    else u)
  match payload.links with
  | none => { db with users := users }
  | some ls =>
    { db with
      users := users
      links := db.links.filter (fun l => !decide (l.user_id = uid)) ++
        mkNewLinks uid db.nextLinkId ls
      nextLinkId := db.nextLinkId + ls.length }

/-- `public_profile` (main.py lines 198-209): case-insensitive lookup, 404
when absent, otherwise the same view construction as `me`. -/
def public_profile (db : DB) (username : String) :
    Except (Nat × String) UserPublic :=
  match findUserByUsername db (pyLower username) with
  | none => .error (404, "User not found")
  | some u =>
    .ok { username := u.username
          bio := u.bio
          avatar_url := u.avatar_url
          theme_hex := u.theme_hex
          links := (sortLinks (linksOf db u.id)).map linkOut }

/-! ## Lemmas: `sortLinks` is a stable ascending sort -/

theorem sortLinks_sorted (ls : List LinkRec) :
    List.Sorted linkLE (sortLinks ls) :=
  List.sorted_insertionSort linkLE ls

theorem mem_sortLinks {a : LinkRec} {ls : List LinkRec} :
    a ∈ sortLinks ls ↔ a ∈ ls :=
  List.mem_insertionSort linkLE

theorem filter_orderedInsert (x : LinkRec) (k : Int) (l : List LinkRec) :
    (List.orderedInsert linkLE x l).filter (fun a => decide (a.order_index = k)) =
      if x.order_index = k then
        x :: l.filter (fun a => decide (a.order_index = k))
      else l.filter (fun a => decide (a.order_index = k)) := by
  induction l with
  | nil =>
    simp only [List.orderedInsert]
    rcases eq_or_ne x.order_index k with h | h <;> simp [List.filter_cons, h]
  | cons b t ih =>
    by_cases hxb : linkLE x b
    · have hrw : List.orderedInsert linkLE x (b :: t) = x :: b :: t := by
        simp [List.orderedInsert, hxb]
      rw [hrw]
      rcases eq_or_ne x.order_index k with h | h <;> simp [List.filter_cons, h]
    · have hrw : List.orderedInsert linkLE x (b :: t) =
          b :: List.orderedInsert linkLE x t := by
        simp [List.orderedInsert, hxb]
      rw [hrw]
      rcases eq_or_ne x.order_index k with h | h
      · have hbk : ¬ b.order_index = k := by
          intro hbk
          have hlt : b.order_index < x.order_index := lt_of_not_le hxb
          omega
        simp [List.filter_cons, hbk, h, ih]
      · simp [List.filter_cons, h, ih]

theorem filter_sortLinks (k : Int) (ls : List LinkRec) :
    (sortLinks ls).filter (fun a => decide (a.order_index = k)) =
      ls.filter (fun a => decide (a.order_index = k)) := by
  induction ls with
  | nil => rfl
  | cons x t ih =>
    have hrw : sortLinks (x :: t) = List.orderedInsert linkLE x (sortLinks t) := rfl
    rw [hrw, filter_orderedInsert]
    rcases eq_or_ne x.order_index k with h | h <;> simp [List.filter_cons, h, ih]

/-! ## Lemmas: the rows inserted by `update_me` -/

theorem length_mkNewLinksAux (uid sid : Nat) (ls : List LinkIn) : ∀ j : Nat,
    (mkNewLinksAux uid sid j ls).length = ls.length := by
  induction ls with
  | nil => intro j; rfl
  | cons L t ih => intro j; simp [mkNewLinksAux, ih (j + 1)]

theorem getElem?_mkNewLinksAux (uid sid : Nat) (ls : List LinkIn) :
    ∀ j i : Nat,
    (mkNewLinksAux uid sid j ls)[i]? =
      (ls[i]?).map (fun L =>
        { id := sid + (j + i)
          user_id := uid
          title := L.title
          url := L.url
          icon := L.icon
          order_index := assignIndex L (j + i) }) := by
  induction ls with
  | nil => intro j i; simp [mkNewLinksAux]
  | cons L t ih =>
    intro j i
    cases i with
    | zero => simp [mkNewLinksAux]
    | succ i' =>
      have h1 : j + 1 + i' = j + (i' + 1) := by omega
      simp only [mkNewLinksAux, List.getElem?_cons_succ]
      rw [ih (j + 1) i', h1]

theorem mem_mkNewLinksAux (uid sid : Nat) (ls : List LinkIn) (m : LinkRec) :
    ∀ j : Nat, m ∈ mkNewLinksAux uid sid j ls →
      m.user_id = uid ∧ sid ≤ m.id := by
  induction ls with
  | nil => intro j hm; simp [mkNewLinksAux] at hm
  | cons L t ih =>
    intro j hm
    simp only [mkNewLinksAux, List.mem_cons] at hm
    rcases hm with rfl | hm
    · exact ⟨rfl, Nat.le_add_right sid j⟩
    · exact ih (j + 1) hm

theorem filter_mkNewLinksAux (uid sid : Nat) (ls : List LinkIn) : ∀ j : Nat,
    (mkNewLinksAux uid sid j ls).filter (fun l => decide (l.user_id = uid)) =
      mkNewLinksAux uid sid j ls := by
  induction ls with
  | nil => intro j; rfl
  | cons L t ih => intro j; simp [mkNewLinksAux, List.filter_cons, ih (j + 1)]

theorem filter_erase_links (uid : Nat) (l : List LinkRec) :
    (l.filter (fun a => !decide (a.user_id = uid))).filter
      (fun a => decide (a.user_id = uid)) = [] := by
  induction l with
  | nil => rfl
  | cons x t ih => by_cases h : x.user_id = uid <;> simp [List.filter_cons, h, ih]

theorem linksOf_update_me_some (db : DB) (uid : Nat) (payload : UpdateProfileIn)
    (ls : List LinkIn) (hl : payload.links = some ls) :
    linksOf (update_me db uid payload) uid = mkNewLinks uid db.nextLinkId ls := by
  simp only [update_me, hl, linksOf, mkNewLinks]
  rw [List.filter_append, filter_erase_links, filter_mkNewLinksAux]
  simp

/-! ## Sample data used by witnesses -/

/-- A stored user as created by `signup("Alice", "alice@x.com", "secret1")`. -/
def aliceU : UserRec :=
  { id := 1
    username := "alice"
    email := "alice@x.com"
    password_hash := Digest.bcrypt 0 "secret1"
    bio := some ""
    avatar_url := none
    theme_hex := some "#00ff88" }

/-- A pre-existing link owned by `aliceU`. -/
def oldLink : LinkRec :=
  { id := 3, user_id := 1, title := "Old", url := "https://old.example",
    icon := none, order_index := 0 }

/-- A store holding one user with one link. -/
def sampleDB : DB :=
  { users := [aliceU], links := [oldLink], nextUserId := 2, nextLinkId := 5 }

/-- A posted link list, as in the spec's concrete scenario. -/
def newLinksIn : List LinkIn :=
  [{ title := "Site", url := "https://a.com", icon := none, order_index := 0 },
   { title := "Blog", url := "https://b.com", icon := none, order_index := 1 }]

/-- An update request replacing the links and touching nothing else. -/
def payloadLinks : UpdateProfileIn :=
  { bio := none, avatar_url := none, theme_hex := none, links := some newLinksIn }

/-- An update request changing the bio only, `links` absent. -/
def payloadNoLinks : UpdateProfileIn :=
  { bio := some "new bio", avatar_url := none, theme_hex := none, links := none }

/-! ## C5 — credential verification -/

/-- C5 counterexample: on a malformed digest `verify_pw` propagates passlib's
`UnknownHashError` rather than returning `false`, refuting "never throws; on
a malformed digest it returns false instead of raising". -/
theorem verify_pw_malformed_raises :
    verify_pw "password" (Digest.malformed "not-a-hash") =
      Except.error "UnknownHashError" ∧
    verify_pw "password" (Digest.malformed "not-a-hash") ≠ Except.ok false :=
  ⟨rfl, fun h => Except.noConfusion h⟩

/-- C5 (amended): on a well-formed digest `verify_pw` returns a boolean that
is true iff the password matches the digest's embedded password; on a
malformed digest it raises (propagates `UnknownHashError`) instead of
returning `false`. -/
theorem verify_pw_behaviour (p q raw : String) (salt : Nat) :
    verify_pw p (Digest.bcrypt salt q) = Except.ok (decide (p = q)) ∧
    verify_pw p (hash_pw q salt) = Except.ok (decide (p = q)) ∧
    verify_pw p (Digest.malformed raw) = Except.error "UnknownHashError" :=
  ⟨rfl, rfl, rfl⟩

/-! ## C2 — order_index assignment -/

/-- C2 counterexample: an explicitly supplied `order_index` of 0 at position 1
is NOT kept — Python's `L.order_index if L.order_index else i` treats 0 as
falsy, so the stored indices are `[7, 1]`, not the claimed `[7, 0]`. -/
theorem order_index_zero_not_kept :
    (mkNewLinks 1 10
      [{ title := "a", url := "https://a", icon := none, order_index := 7 },
       { title := "b", url := "https://b", icon := none, order_index := 0 }]).map
      (fun l => l.order_index) = [7, 1] ∧
    (mkNewLinks 1 10
      [{ title := "a", url := "https://a", icon := none, order_index := 7 },
       { title := "b", url := "https://b", icon := none, order_index := 0 }]).map
      (fun l => l.order_index) ≠ [7, 0] :=
  ⟨rfl, by decide⟩

/-- C2 (amended): the link stored at position `i` of the posted sequence
receives the supplied `order_index` whenever that value is nonzero (negative
values included), and receives `i` when the supplied value is 0 — whether the
0 was pydantic's default or explicitly supplied. -/
theorem order_index_assignment (uid sid : Nat) (ls : List LinkIn) (i : Nat)
    (L : LinkIn) (h : ls[i]? = some L) :
    ∃ l : LinkRec, (mkNewLinks uid sid ls)[i]? = some l ∧
      l.order_index =
        (if L.order_index = 0 then (i : Int) else L.order_index) := by
  have hg := getElem?_mkNewLinksAux uid sid ls 0 i
  rw [h] at hg
  refine ⟨_, by simpa [mkNewLinks] using hg, ?_⟩
  simp [assignIndex]

/-- Witness for the amended C2 at a concrete input: position 1 of the sample
payload carries an explicit nonzero `order_index` 1, which is kept. -/
theorem order_index_assignment_witness :
    ∃ l : LinkRec, (mkNewLinks 1 5 newLinksIn)[1]? = some l ∧
      l.order_index = (if (1 : Int) = 0 then (1 : Int) else 1) :=
  order_index_assignment 1 5 newLinksIn 1
    { title := "Blog", url := "https://b.com", icon := none, order_index := 1 }
    (by decide)

/-! ## C4 — token issue/verify round trip -/

/-- C4: a token issued with the default ttl expires exactly 14 days after
issuance; `verify` accepts it at any time strictly before `exp` and rejects
it at any time after `exp`; and under any key different from the signing
secret it is always rejected. -/
theorem token_issue_verify (secret secret2 subj : String) (issuedAt t : Int) :
    (create_token (some subj) ACCESS_TOKEN_MINUTES issuedAt secret).payload.exp =
      issuedAt + 14 * 24 * 60 * 60 ∧
    (t < issuedAt + 14 * 24 * 60 * 60 →
      jwtDecode (create_token (some subj) ACCESS_TOKEN_MINUTES issuedAt secret)
          secret t =
        some { sub := some subj, exp := issuedAt + 14 * 24 * 60 * 60 }) ∧
    (issuedAt + 14 * 24 * 60 * 60 < t →
      jwtDecode (create_token (some subj) ACCESS_TOKEN_MINUTES issuedAt secret)
          secret t = none) ∧
    (secret2 ≠ secret →
      jwtDecode (create_token (some subj) ACCESS_TOKEN_MINUTES issuedAt secret)
          secret2 t = none) := by
  have hexp : (60 : Int) * ACCESS_TOKEN_MINUTES = 14 * 24 * 60 * 60 := by
    norm_num [ACCESS_TOKEN_MINUTES]
  refine ⟨?_, ?_, ?_, ?_⟩
  · simp only [create_token]
    omega
  · intro ht
    simp only [jwtDecode, create_token]
    split_ifs with hcond
    · simp only [Option.some.injEq, TokenPayload.mk.injEq]
      exact ⟨trivial, by omega⟩
    · exact absurd ⟨trivial, by omega⟩ hcond
  · intro ht
    simp only [jwtDecode, create_token]
    split_ifs with hcond
    · exfalso
      rcases hcond with ⟨-, hle⟩
      omega
    · rfl
  · intro hs
    simp only [jwtDecode, create_token]
    split_ifs with hcond
    · exact absurd hcond.1.symm hs
    · rfl

/-- Witness for C4 at concrete inputs: a token issued at time 0 with secret
"k" verifies at time 5, is rejected at time 1209601, and is rejected under
key "other". -/
theorem token_issue_verify_witness :
    jwtDecode (create_token (some "alice") ACCESS_TOKEN_MINUTES 0 "k") "k" 5 =
      some { sub := some "alice", exp := 1209600 } ∧
    jwtDecode (create_token (some "alice") ACCESS_TOKEN_MINUTES 0 "k") "k"
      1209601 = none ∧
    jwtDecode (create_token (some "alice") ACCESS_TOKEN_MINUTES 0 "k") "other"
      5 = none := by
  refine ⟨?_, ?_, ?_⟩
  · have h := (token_issue_verify "k" "other" "alice" 0 5).2.1 (by norm_num)
    simpa using h
  · exact (token_issue_verify "k" "other" "alice" 0 1209601).2.2.1 (by norm_num)
  · exact (token_issue_verify "k" "other" "alice" 0 5).2.2.2 (by decide)

/-! ## C10 — signup password length gate -/

/-- C10: a signup request whose password is shorter than 6 characters is
rejected by the pydantic input gate before the handler runs: the result is a
validation error and the store is returned unchanged. -/
theorem signup_short_password_rejected (secret : String)
    (emailOk : String → Bool) (db : DB) (username email password : String)
    (salt : Nat) (now : Int) (h : password.length < 6) :
    signup secret emailOk db username email password salt now =
      (.validationError, db) := by
  have h6 : decide (6 ≤ password.length) = false := decide_eq_false (by omega)
  have hv : signupInValid emailOk username email password = false := by
    simp [signupInValid, h6]
  simp [signup, hv]

/-- Witness for C10: a 3-character password is rejected and the store is
untouched. -/
theorem signup_short_password_rejected_witness :
    signup "k" (fun _ => true) sampleDB "bob" "bob@x.com" "abc" 0 0 =
      (.validationError, sampleDB) :=
  signup_short_password_rejected "k" (fun _ => true) sampleDB "bob" "bob@x.com"
    "abc" 0 0 (by decide)

/-! ## C3 — session resolver -/

/-- C3 counterexample: a token signed with the process secret whose payload
carries no `"sub"` claim passes `jwt.decode`, after which `username.lower()`
on `None` raises an uncaught `AttributeError` — an untyped exception on a
token input, refuting "never raises an untyped exception". -/
theorem session_resolver_untyped_crash :
    current_user "change-me-in-prod"
      { users := [], links := [], nextUserId := 1, nextLinkId := 1 }
      { payload := { sub := none, exp := 100 }, key := "change-me-in-prod" } 0 =
      AuthResult.pythonError "AttributeError" := by
  decide

/-- C3 (amended): for every token whose payload carries a subject claim —
which includes every token the server issues — the resolver is total and
typed: a token failing verification yields 401 "Invalid token"; a verifying
token whose case-normalized subject matches no stored user yields 401
"User not found"; otherwise the owning user is returned.  Only a verifying
token with no subject claim (constructible only with the signing secret)
escapes this typing, per the counterexample. -/
theorem current_user_typed (secret : String) (db : DB) (tok : Token)
    (now : Int) (hsub : tok.payload.sub ≠ none) :
    (jwtDecode tok secret now = none ∧
      current_user secret db tok now = .httpError 401 "Invalid token") ∨
    (∃ s, tok.payload.sub = some s ∧
      jwtDecode tok secret now = some tok.payload ∧
      ((findUserByUsername db (pyLower s) = none ∧
          current_user secret db tok now = .httpError 401 "User not found") ∨
        (∃ u, findUserByUsername db (pyLower s) = some u ∧
          current_user secret db tok now = .ok u))) := by
  cases hdec : jwtDecode tok secret now with
  | none =>
    exact Or.inl ⟨rfl, by simp [current_user, hdec]⟩
  | some payload =>
    have hpay : payload = tok.payload := by
      by_cases hc : tok.key = secret ∧ now ≤ tok.payload.exp
      · rw [jwtDecode, if_pos hc] at hdec
        exact (Option.some.injEq _ _ ▸ hdec).symm
      · rw [jwtDecode, if_neg hc] at hdec
        exact absurd hdec (by simp)
    subst hpay
    cases hs : tok.payload.sub with
    | none => exact absurd hs hsub
    | some s =>
      refine Or.inr ⟨s, rfl, rfl, ?_⟩
      cases hf : findUserByUsername db (pyLower s) with
      | none =>
        exact Or.inl ⟨rfl, by simp [current_user, hdec, hs, hf]⟩
      | some u =>
        exact Or.inr ⟨u, rfl, by simp [current_user, hdec, hs, hf]⟩

/-- Witness for the amended C3: a verifying token for subject "alice" against
an empty store lands in the typed "User not found" branch. -/
theorem current_user_typed_witness :
    (jwtDecode { payload := { sub := some "alice", exp := 100 }, key := "k" }
        "k" 0 = none ∧
      current_user "k" { users := [], links := [], nextUserId := 1, nextLinkId := 1 }
        { payload := { sub := some "alice", exp := 100 }, key := "k" } 0 =
        .httpError 401 "Invalid token") ∨
    (∃ s, ({ sub := some "alice", exp := 100 } : TokenPayload).sub = some s ∧
      jwtDecode { payload := { sub := some "alice", exp := 100 }, key := "k" }
        "k" 0 =
        some { sub := some "alice", exp := 100 } ∧
      ((findUserByUsername
            { users := [], links := [], nextUserId := 1, nextLinkId := 1 }
            (pyLower s) = none ∧
          current_user "k"
            { users := [], links := [], nextUserId := 1, nextLinkId := 1 }
            { payload := { sub := some "alice", exp := 100 }, key := "k" } 0 =
            .httpError 401 "User not found") ∨
        (∃ u, findUserByUsername
            { users := [], links := [], nextUserId := 1, nextLinkId := 1 }
            (pyLower s) = some u ∧
          current_user "k"
            { users := [], links := [], nextUserId := 1, nextLinkId := 1 }
            { payload := { sub := some "alice", exp := 100 }, key := "k" } 0 =
            .ok u))) :=
  current_user_typed "k"
    { users := [], links := [], nextUserId := 1, nextLinkId := 1 }
    { payload := { sub := some "alice", exp := 100 }, key := "k" } 0
    (by decide)

/-! ## C6 — uniform login failure -/

/-- C6: a login attempt that fails because the identifier matches no user,
and one that fails because the matched user's password does not verify,
produce the identical 401 "Invalid credentials" error, so the two causes are
indistinguishable to the caller. -/
theorem login_uniform_failure (secret : String) (db : DB) (ident pw : String)
    (now : Int)
    (h : findByIdentifier db ident = none ∨
      ∃ u, findByIdentifier db ident = some u ∧
        verify_pw pw u.password_hash = .ok false) :
    login secret db ident pw now = .httpError 401 "Invalid credentials" := by
  rcases h with h | ⟨u, hu, hv⟩
  · simp [login, h]
  · simp [login, hu, hv]

/-- Witness for C6: against the sample store, an unknown identifier and a
wrong password for a known identifier yield the same 401. -/
theorem login_uniform_failure_witness :
    login "k" sampleDB "bob" "whatever" 0 =
      .httpError 401 "Invalid credentials" ∧
    login "k" sampleDB "alice" "wrong" 0 =
      .httpError 401 "Invalid credentials" :=
  ⟨login_uniform_failure "k" sampleDB "bob" "whatever" 0 (Or.inl (by decide)),
   login_uniform_failure "k" sampleDB "alice" "wrong" 0
    (Or.inr ⟨aliceU, by decide, rfl⟩)⟩

/-! ## C9 — owner view equals public view -/

/-- C9: whenever the public-profile lookup for a username resolves to a
stored user, the returned view is exactly the view `GET /me` returns to that
user as owner — the two read paths build identical `UserPublic` values, with
no field hidden in either. -/
theorem me_eq_public_profile (db : DB) (uname : String) (u : UserRec)
    (h : findUserByUsername db (pyLower uname) = some u) :
    public_profile db uname = Except.ok (me db u) := by
  simp [public_profile, h, me]

/-- Witness for C9 on the sample store. -/
theorem me_eq_public_profile_witness :
    public_profile sampleDB "alice" = Except.ok (me sampleDB aliceU) :=
  me_eq_public_profile sampleDB "alice" aliceU (by decide)

/-! ## C7 — update with links absent -/

/-- C7: an update request with `links` absent leaves the links table (and the
link-id counter) entirely unchanged, while the user row still receives every
one of bio, avatar_url, theme_hex that is present in the request; a field
that is absent keeps its stored value, and an explicit empty-string clear
(`some ""`) is applied, so the two are distinguishable. -/
theorem update_me_links_absent (db : DB) (uid : Nat)
    (payload : UpdateProfileIn) (u : UserRec) (h : payload.links = none)
    (hu : u ∈ db.users) (huid : u.id = uid) :
    (update_me db uid payload).links = db.links ∧
    (update_me db uid payload).nextLinkId = db.nextLinkId ∧
    ∃ u', u' ∈ (update_me db uid payload).users ∧ u'.id = u.id ∧
      u'.username = u.username ∧ u'.email = u.email ∧
      u'.password_hash = u.password_hash ∧
      u'.bio = (match payload.bio with | some b => some b | none => u.bio) ∧
      u'.avatar_url =
        (match payload.avatar_url with | some a => some a | none => u.avatar_url) ∧
      u'.theme_hex =
        (match payload.theme_hex with | some t => some t | none => u.theme_hex) := by
  refine ⟨by simp [update_me, h], by simp [update_me, h], ?_⟩
  simp only [update_me, h]
  refine ⟨_, List.mem_map_of_mem _ hu, ?_⟩
  simp [huid]

/-- Witness for C7: updating only the bio leaves the sample store's links and
link-id counter untouched. -/
theorem update_me_links_absent_witness :
    (update_me sampleDB 1 payloadNoLinks).links = sampleDB.links ∧
    (update_me sampleDB 1 payloadNoLinks).nextLinkId = sampleDB.nextLinkId :=
  ⟨(update_me_links_absent sampleDB 1 payloadNoLinks aliceU rfl (by decide)
      rfl).1,
   (update_me_links_absent sampleDB 1 payloadNoLinks aliceU rfl (by decide)
      rfl).2.1⟩

/-! ## C8 — read output sorted ascending, ties stable -/

/-- C8: every profile read output (the owner's `/me` view and the public
view) presents the user's links as the stable ascending sort by
`order_index`: the presented list is sorted under `linkLE`, and for every key
value the links with that `order_index` appear in their insertion order
(filter preservation — the characterization of a stable sort). -/
theorem profile_links_sorted_stable (db : DB) (u : UserRec) (uname : String)
    (v : UserPublic) (hpub : public_profile db uname = Except.ok v) :
    List.Sorted linkLE (sortLinks (linksOf db u.id)) ∧
    (me db u).links = (sortLinks (linksOf db u.id)).map linkOut ∧
    (∀ k : Int,
      (sortLinks (linksOf db u.id)).filter
          (fun l => decide (l.order_index = k)) =
        (linksOf db u.id).filter (fun l => decide (l.order_index = k))) ∧
    ∃ w, findUserByUsername db (pyLower uname) = some w ∧
      v.links = (sortLinks (linksOf db w.id)).map linkOut := by
  refine ⟨sortLinks_sorted _, rfl, fun k => filter_sortLinks k _, ?_⟩
  cases hf : findUserByUsername db (pyLower uname) with
  | none =>
    rw [public_profile, hf] at hpub
    exact Except.noConfusion hpub
  | some w =>
    refine ⟨w, rfl, ?_⟩
    rw [public_profile, hf] at hpub
    simp only [Except.ok.injEq] at hpub
    rw [← hpub]

/-- Witness for C8 on the sample store. -/
theorem profile_links_sorted_stable_witness :
    List.Sorted linkLE (sortLinks (linksOf sampleDB 1)) ∧
    (me sampleDB aliceU).links = (sortLinks (linksOf sampleDB 1)).map linkOut :=
  ⟨(profile_links_sorted_stable sampleDB aliceU "alice" (me sampleDB aliceU)
      rfl).1,
   (profile_links_sorted_stable sampleDB aliceU "alice" (me sampleDB aliceU)
      rfl).2.1⟩

/-! ## C1 — full replacement of the link set -/

/-- C1: when `links` is present, `update_me` deletes every link previously
owned by the user and persists exactly the posted sequence: afterwards the
user's stored link set is exactly the new rows, the public profile returns
exactly those rows sorted by `order_index`, and no link of the old set
appears in the returned set. -/
theorem update_links_full_replacement (db : DB) (uid : Nat)
    (payload : UpdateProfileIn) (ls : List LinkIn) (uname : String)
    (u' : UserRec) (hl : payload.links = some ls)
    (hfresh : ∀ l ∈ db.links, l.id < db.nextLinkId)
    (hu : findUserByUsername (update_me db uid payload) (pyLower uname) =
      some u')
    (hid : u'.id = uid) :
    linksOf (update_me db uid payload) uid = mkNewLinks uid db.nextLinkId ls ∧
    public_profile (update_me db uid payload) uname =
      Except.ok
        { username := u'.username
          bio := u'.bio
          avatar_url := u'.avatar_url
          theme_hex := u'.theme_hex
          links := (sortLinks (mkNewLinks uid db.nextLinkId ls)).map linkOut } ∧
    ∀ l ∈ linksOf db uid, l ∉ sortLinks (mkNewLinks uid db.nextLinkId ls) := by
  have h1 := linksOf_update_me_some db uid payload ls hl
  refine ⟨h1, ?_, ?_⟩
  · simp only [public_profile, hu]
    rw [hid, h1]
  · intro l hml hmem
    have hl2 : l ∈ db.links := by
      simp only [linksOf, List.mem_filter] at hml
      exact hml.1
    have hlt : l.id < db.nextLinkId := hfresh l hl2
    have hmem2 : l ∈ mkNewLinksAux uid db.nextLinkId 0 ls :=
      mem_sortLinks.mp hmem
    have hge := (mem_mkNewLinksAux uid db.nextLinkId ls l 0 hmem2).2
    omega

/-- Witness for C1: replacing the sample user's single old link with the two
posted links yields exactly the two new rows, and the public profile shows
them (and not the old link). -/
theorem update_links_full_replacement_witness :
    linksOf (update_me sampleDB 1 payloadLinks) 1 = mkNewLinks 1 5 newLinksIn ∧
    public_profile (update_me sampleDB 1 payloadLinks) "alice" =
      Except.ok
        { username := "alice"
          bio := some ""
          avatar_url := none
          theme_hex := some "#00ff88"
          links := (sortLinks (mkNewLinks 1 5 newLinksIn)).map linkOut } :=
  ⟨(update_links_full_replacement sampleDB 1 payloadLinks newLinksIn "alice"
      aliceU rfl (by decide) (by decide) rfl).1,
   (update_links_full_replacement sampleDB 1 payloadLinks newLinksIn "alice"
      aliceU rfl (by decide) (by decide) rfl).2.1⟩
